import Mathlib

/-!
Shallow embedding of the earthquake dashboard's data pipeline (`app.py`):
the query construction and fetch wrapper `fetch_earthquake_data`
(lines 46-76) and the normalizer `process_earthquake_data` (lines 78-114),
together with the main-flow glue that connects them (lines 116-125).

Conventions of the embedding:
* JSON numbers that the code merely passes through (magnitude, coordinates,
  cdi, mmi, minimum-magnitude values) are modelled as `Rat`; integer-valued
  fields (epoch-millis timestamp, tsunami flag, significance, felt count,
  HTTP status) as `Int`/`Nat`; strings as `String`.
* A Python dict entry can be absent, present with value `None`, or present
  with a value; `DictField` captures the three cases, and `DictField.getD`
  is `dict.get(key, default)`.
* Python exceptions raised by the modelled code are the `PyErr` error
  component of `Except`.
-/

/-- Python exceptions that the modelled fragments of `app.py` can raise. -/
inductive PyErr where
  /-- `KeyError`: subscripting a dict with a missing key, or
  `DataFrame.dropna(subset=...)` naming columns the frame does not have. -/
  | keyError
  /-- `TypeError`: e.g. subscripting or iterating `None`, or `None / 1000`. -/
  | typeError
  /-- `AttributeError`: e.g. calling `.get` on `None`. -/
  | attributeError
  /-- `ValueError`: e.g. `float()` applied to a non-numeric string. -/
  | valueError
deriving DecidableEq, Repr

/-- One entry of a Python dict parsed from JSON: the key can be absent,
present with JSON `null` (Python `None`), or present with a value. -/
inductive DictField (α : Type) where
  | absent
  | null
  | val (a : α)
deriving DecidableEq, Repr

namespace DictField

/-- Python `d.get(key, default)` : returns the stored value (which may be
`None`) when the key is present, and `default` when it is absent. The
result is an `Option`: `none` is Python `None`. -/
def getD {α : Type} : DictField α → Option α → Option α
  | .absent, d => d
  | .null, _ => none
  | .val a, _ => some a

end DictField

/-- The `properties` sub-object of one feed feature, with exactly the keys
read at lines 89-101 of `app.py`. -/
structure Props where
  mag : DictField Rat
  place : DictField String
  /-- Epoch-millis timestamp, key `time`. -/
  time : DictField Int
  url : DictField String
  tsunami : DictField Int
  sig : DictField Int
  alert : DictField String
  felt : DictField Int
  cdi : DictField Rat
  mmi : DictField Rat
deriving DecidableEq, Repr

/-- The `geometry` sub-object of one feed feature (line 86 reads
`feature['geometry']['coordinates']`). -/
structure Geometry where
  coordinates : DictField (List Rat)
deriving DecidableEq, Repr

/-- One element of the payload's `features` list. The `properties` and
`geometry` keys may themselves be absent or null in a malformed record. -/
structure Feature where
  properties : DictField Props
  geometry : DictField Geometry
deriving DecidableEq, Repr

/-- The parsed JSON payload returned by the feed: a dict that may or may
not carry a `features` key. `hasOtherKeys` records whether the dict has
any key besides `features`, which matters only for Python truthiness
(`not data` is true exactly for the empty dict). -/
structure Payload where
  features : DictField (List Feature)
  hasOtherKeys : Bool
deriving DecidableEq, Repr

/-- Python truthiness of the payload dict: `bool(data)` is false exactly
when the dict is empty. -/
def Payload.truthy (p : Payload) : Bool :=
  (match p.features with
   | .absent => false
   | _ => true) || p.hasOtherKeys

/-- One row of the normalized table built at lines 88-102 of `app.py`.
Field names follow the dict keys of the source. `none` models a Python
`None` (pandas `NaN`) cell. -/
structure Earthquake where
  magnitude : Option Rat
  place : Option String
  /-- The code stores `datetime.fromtimestamp(props.get('time', 0) / 1000)`.
  For a fixed local timezone that conversion is an injective function of the
  epoch-millis integer, so the model keeps the millis value itself. -/
  time : Int
  longitude : Option Rat
  latitude : Option Rat
  depth : Option Rat
  url : Option String
  tsunami : Option Int
  significance : Option Int
  alert : Option String
  felt : Option Int
  cdi : Option Rat
  mmi : Option Rat
deriving DecidableEq, Repr

/-- Line 85, `props = feature['properties']`, followed by the `.get` calls:
a missing key raises `KeyError`; a null value makes `props` `None`, and the
first `props.get` then raises `AttributeError`. -/
def getProps (f : Feature) : Except PyErr Props :=
  match f.properties with
  | .absent => .error .keyError
  | .null => .error .attributeError
  | .val p => .ok p

/-- Line 86, `coords = feature['geometry']['coordinates']`: a missing
`geometry` or `coordinates` key raises `KeyError`; a null `geometry` makes
`None['coordinates']` raise `TypeError`; null `coordinates` makes the later
`len(coords)` raise `TypeError`. -/
def getCoords (f : Feature) : Except PyErr (List Rat) :=
  match f.geometry with
  | .absent => .error .keyError
  | .null => .error .typeError
  | .val g =>
    match g.coordinates with
    | .absent => .error .keyError
    | .null => .error .typeError
    | .val cs => .ok cs

/-- Line 91, `datetime.fromtimestamp(props.get('time', 0) / 1000)`: when the
`time` key is present but null, `None / 1000` raises `TypeError`; otherwise
the millis value (defaulted to 0 when the key is absent) is kept, the
injective wall-clock conversion being abstracted away (see `Earthquake.time`). -/
def pyTime (p : Props) : Except PyErr Int :=
  match p.time.getD (some 0) with
  | none => .error .typeError
  | some t => .ok t

/-- Lines 85-102 of `app.py`: build the dict for one feature. Evaluation
order follows the source: `feature['properties']` first, then
`feature['geometry']['coordinates']`, then the dict literal whose `time`
entry is the first that can raise. -/
def buildRow (f : Feature) : Except PyErr Earthquake := do
  let props ← getProps f
  let coords ← getCoords f
  let t ← pyTime props
  .ok { magnitude := props.mag.getD none
        place := props.place.getD none
        time := t
        longitude := coords[0]?
        latitude := coords[1]?
        depth := coords[2]?
        url := props.url.getD none
        tsunami := props.tsunami.getD (some 0)
        significance := props.sig.getD (some 0)
        alert := props.alert.getD none
        felt := props.felt.getD (some 0)
        cdi := props.cdi.getD none
        mmi := props.mmi.getD none }

/-- Lines 83-103: the `for feature in data['features']` loop, appending one
dict per feature. The loop is fail-fast: the first exception aborts the
whole call. -/
def buildRows : List Feature → Except PyErr (List Earthquake)
  | [] => .ok []
  | f :: fs =>
    match buildRow f with
    | .error e => .error e
    | .ok r =>
      match buildRows fs with
      | .error e => .error e
      | .ok rs => .ok (r :: rs)

/-- The dropna predicate of line 108: a row is kept when its `magnitude`,
`longitude` and `latitude` cells are all non-null. -/
def keepRow (r : Earthquake) : Bool :=
  r.magnitude.isSome && r.longitude.isSome && r.latitude.isSome

/-- Line 108, `df.dropna(subset=['magnitude', 'longitude', 'latitude'])`.
When the row list is empty, `pd.DataFrame([])` has no columns at all, and
`dropna(subset=...)` raises `KeyError` for the missing column labels; with
at least one row every dict key of lines 88-102 is a column and the rows
with a null in any of the three subset columns are removed. -/
def dropnaMLL (rows : List Earthquake) : Except PyErr (List Earthquake) :=
  match rows with
  | [] => .error .keyError
  | _ :: _ => .ok (rows.filter keepRow)

/-- Line 112's predicate `df['significance'] >= 600`. A null significance
cell sits in the column as `NaN` (pandas converts `None` to `NaN` in a
numeric column) and `NaN >= 600` is false, so such a row is removed. -/
def isSignificant (r : Earthquake) : Bool :=
  match r.significance with
  | some s => 600 ≤ s
  | none => false

/-- Lines 78-114, `process_earthquake_data`. The source reads the ambient
UI selection `selected_magnitude` (the label string chosen at line 41)
inside the function; the model passes that string explicitly as the first
argument, exactly as compared at line 111. `data` is `None` or the parsed
payload dict; the result is the row list of the returned DataFrame, or the
Python exception the call raises. -/
def process_earthquake_data (selected_magnitude : String) (data : Option Payload) :
    Except PyErr (List Earthquake) :=
  match data with
  | none => .ok []
  | some p =>
    if p.truthy then
      match p.features with
      | .absent => .ok []
      | .null => .error .typeError
      | .val feats =>
        match buildRows feats with
        | .error e => .error e
        | .ok rows =>
          match dropnaMLL rows with
          | .error e => .error e
          | .ok kept =>
            .ok (if selected_magnitude == "Significant Earthquakes"
                 then kept.filter isSignificant
                 else kept)
    else .ok []

/-!
Exact model of the duration computation at line 61,
`timedelta(days=30 if ... else 7 if ... else 1 if ... else 1/24)`.
The three whole-day branches are Python ints, for which `timedelta` is
exact; the `1/24` branch is evaluated in IEEE-754 binary64 and `timedelta`
then converts the float day count to an integer count of microseconds with
round-half-even. Positive rationals are carried as numerator/denominator
pairs of naturals, with no implicit normalization, so that every step is
computable by kernel reduction.
-/

/-- Fuel-driven floor of the base-2 logarithm of a natural number
(`log2fuel n n` is exact for every positive `n`). -/
def log2fuel : Nat → Nat → Nat
  | 0, _ => 0
  | fuel + 1, n => if n ≤ 1 then 0 else log2fuel fuel (n / 2) + 1

/-- Floor of the base-2 logarithm of a positive natural number. -/
def natLog2 (n : Nat) : Nat :=
  log2fuel n n

/-- Decides `n / d ≥ 2 ^ e` for a positive rational `n / d` and `e : Int`,
by cross multiplication. -/
def qGePow2 (n d : Nat) (e : Int) : Bool :=
  if 0 ≤ e then d * 2 ^ e.toNat ≤ n else d ≤ n * 2 ^ (-e).toNat

/-- Floor of the base-2 logarithm of the positive rational `n / d`: the
candidate from the integer logarithms is off by at most one, which the two
comparisons correct. -/
def qFloorLog2 (n d : Nat) : Int :=
  let e : Int := (natLog2 n : Int) - (natLog2 d : Int)
  if qGePow2 n d (e + 1) then e + 1
  else if qGePow2 n d e then e
  else e - 1

/-- Round the nonnegative rational `a / b` to the nearest natural number,
ties to even (the rounding IEEE-754 and CPython's `timedelta` use). -/
def rhe (a b : Nat) : Nat :=
  let q := a / b
  let r := a % b
  if 2 * r < b then q
  else if b < 2 * r then q + 1
  else if q % 2 = 0 then q else q + 1

/-- Nearest IEEE-754 binary64 value to the positive rational `n / d`
(normal range; the inputs of this development are far from subnormal or
overflow territory), returned as an exact numerator/denominator pair: the
significand is rounded to 53 bits, ties to even. -/
def roundB64 (n d : Nat) : Nat × Nat :=
  let e : Int := qFloorLog2 n d - 52
  if 0 ≤ e then (rhe n (d * 2 ^ e.toNat) * 2 ^ e.toNat, 1)
  else (rhe (n * 2 ^ (-e).toNat) d, 2 ^ (-e).toNat)

/-- The binary64 value of the Python expression `1/24` (true division of
ints produces a float). -/
def pyOneTwentyFourth : Nat × Nat :=
  roundB64 1 24

/-- The argument of `timedelta(days=...)` at line 61: a Python int on the
month/week/day branches, a float on the final `1/24` branch. -/
inductive PyDays where
  | int (n : Nat)
  | float (num den : Nat)
deriving DecidableEq, Repr

/-- Line 61's conditional expression
`30 if time_period == "month" else 7 if time_period == "week" else 1 if time_period == "day" else 1/24`. -/
def windowDays (time_period : String) : PyDays :=
  if time_period == "month" then .int 30
  else if time_period == "week" then .int 7
  else if time_period == "day" then .int 1
  else .float pyOneTwentyFourth.1 pyOneTwentyFourth.2

/-- `timedelta(days=x)` as a count of microseconds. For an int argument the
conversion is exact; for a float argument CPython multiplies the day count
by 86400 in binary64 and converts the resulting seconds to microseconds
with round-half-even. -/
def timedeltaMicros : PyDays → Nat
  | .int n => n * 86400 * 1000000
  | .float num den =>
    let s := roundB64 (num * 86400) den
    rhe (s.1 * 1000000) s.2

/-- The duration subtracted from `datetime.now()` at line 61, in
microseconds. -/
def windowMicros (time_period : String) : Nat :=
  timedeltaMicros (windowDays time_period)

/-- `float()` applied to a magnitude option value (line 65). The three
numeric option strings of the UI dict (lines 34-40) denote values exactly
representable in binary64; any other string models `float()` raising
`ValueError`, but the UI only ever supplies the five option values. -/
def pyFloatOfString (s : String) : Except PyErr Rat :=
  if s == "4.5" then .ok (9 / 2)
  else if s == "2.5" then .ok (5 / 2)
  else if s == "1.0" then .ok 1
  else .error .valueError

/-- The query parameters sent to the feed (lines 53-68). `starttime` is the
number of microseconds subtracted from `datetime.now()` to form the
ISO-8601 lower bound; `none` models the parameter being omitted. -/
structure UsgsParams where
  format : String
  limit : Nat
  orderby : String
  starttime : Option Nat
  minmagnitude : Option Rat
deriving DecidableEq, Repr

/-- Lines 53-68 of `fetch_earthquake_data`: build the `params` dict. The
`starttime` entry is added exactly when `time_period != "all"`; the
`minmagnitude` entry exactly when the magnitude value is neither `"all"`
nor `"significant"`, in which case `float(magnitude)` is evaluated (and
could raise, which the surrounding `try` does not catch since it happens
before line 70). -/
def build_params (time_period magnitude : String) (limit : Nat) :
    Except PyErr UsgsParams :=
  let starttime : Option Nat :=
    if time_period != "all" then some (windowMicros time_period) else none
  match (if magnitude != "all" && magnitude != "significant"
         then Except.map some (pyFloatOfString magnitude)
         else .ok none) with
  | .error e => .error e
  | .ok minmagnitude =>
    .ok { format := "geojson", limit := limit, orderby := "time",
          starttime := starttime, minmagnitude := minmagnitude }

/-- One HTTP request as issued at line 71: the query parameters together
with the fixed `timeout=10` seconds. -/
structure HttpRequest where
  params : UsgsParams
  timeoutSeconds : Nat
deriving DecidableEq, Repr

/-- Outcome of the single `requests.get` call: either a raised
`requests.exceptions.RequestException` (connection failure or timeout), or
a response with an HTTP status code and a parsed JSON body. -/
inductive TransportResult where
  | exception
  | response (status : Nat) (body : Payload)

/-- Lines 46-76, `fetch_earthquake_data`: build the parameters, issue the
one request (no retries), and apply `raise_for_status`, which raises for
status codes 400-599; a raised `RequestException` is caught and turned
into the `None` return value (the fetch-error state). The network itself
is the `transport` argument. -/
def fetch_earthquake_data (time_period magnitude : String) (limit : Nat)
    (transport : HttpRequest → TransportResult) : Except PyErr (Option Payload) :=
  match build_params time_period magnitude limit with
  | .error e => .error e
  | .ok params =>
    match transport { params := params, timeoutSeconds := 10 } with
    | .exception => .ok none
    | .response status body =>
      if 400 ≤ status ∧ status < 600 then .ok none else .ok (some body)

/-- The magnitude selector of the UI (lines 34-41): each variant pairs the
label shown in the sidebar with the value string of the
`magnitude_options` dict. -/
inductive MagnitudeFilter where
  | all
  | significant
  | min_4_5
  | min_2_5
  | min_1_0
deriving DecidableEq, Repr

/-- The dict key (UI label) of a magnitude option, lines 34-40. -/
def MagnitudeFilter.label : MagnitudeFilter → String
  | .all => "All Earthquakes"
  | .significant => "Significant Earthquakes"
  | .min_4_5 => "M4.5+ Earthquakes"
  | .min_2_5 => "M2.5+ Earthquakes"
  | .min_1_0 => "M1.0+ Earthquakes"

/-- The dict value of a magnitude option, lines 34-40: the string handed to
`fetch_earthquake_data`. -/
def MagnitudeFilter.value : MagnitudeFilter → String
  | .all => "all"
  | .significant => "significant"
  | .min_4_5 => "4.5"
  | .min_2_5 => "2.5"
  | .min_1_0 => "1.0"

/-- The time window of a query. The UI dict of lines 25-30 offers the four
bounded windows; `fetch_earthquake_data` additionally understands the value
`"all"` (line 60), which omits the time bound. -/
inductive TimeWindow where
  | all
  | last_hour
  | last_day
  | last_week
  | last_month
deriving DecidableEq, Repr

/-- The value string of a time window as handed to `fetch_earthquake_data`
(dict values at lines 25-30). -/
def TimeWindow.value : TimeWindow → String
  | .all => "all"
  | .last_hour => "hour"
  | .last_day => "day"
  | .last_week => "week"
  | .last_month => "month"

/-- Lines 116-125 of `app.py`: fetch with the selected parameters, then
run `process_earthquake_data` exactly when the fetched value is truthy
(`if earthquake_data:`); `none` in the result is the error branch of line
287, where the normalizer is not invoked. -/
def run_pipeline (m : MagnitudeFilter) (w : TimeWindow) (limit : Nat)
    (transport : HttpRequest → TransportResult) :
    Except PyErr (Option (Except PyErr (List Earthquake))) :=
  match fetch_earthquake_data w.value m.value limit transport with
  | .error e => .error e
  | .ok d =>
    .ok (match d with
         | some p =>
           if p.truthy then some (process_earthquake_data m.label (some p)) else none
         | none => none)

/-!
Concrete sample data used by witness and counterexample theorems.
-/

/-- A fully populated `properties` object: magnitude 6, significance 650. -/
def exProps : Props :=
  { mag := .val 6, place := .val "SF", time := .val 1700000000000,
    url := .val "u", tsunami := .val 0, sig := .val 650, alert := .absent,
    felt := .absent, cdi := .absent, mmi := .absent }

/-- A well-formed feature with a 3-element coordinate array. -/
def exFeature : Feature :=
  ⟨.val exProps, .val ⟨.val [1, 2, 3]⟩⟩

/-- The row `process_earthquake_data` builds from `exFeature`. -/
def exRow : Earthquake :=
  { magnitude := some 6, place := some "SF", time := 1700000000000,
    longitude := some 1, latitude := some 2, depth := some 3,
    url := some "u", tsunami := some 0, significance := some 650,
    alert := none, felt := some 0, cdi := none, mmi := none }

/-- A well-formed feature whose significance is 400 (below the 600
threshold). -/
def lowSigFeature : Feature :=
  ⟨.val { exProps with sig := .val 400 }, .val ⟨.val [4, 5, 6]⟩⟩

/-- The row built from `lowSigFeature`. -/
def lowSigRow : Earthquake :=
  { exRow with
    significance := some 400, longitude := some 4, latitude := some 5,
    depth := some 6 }

/-- A well-formed feature whose magnitude value is JSON null. -/
def noMagFeature : Feature :=
  ⟨.val { exProps with mag := .null }, .val ⟨.val [7, 8, 9]⟩⟩

/-- The row built from `noMagFeature`: null magnitude, so the dropna of
line 108 removes it. -/
def noMagRow : Earthquake :=
  { exRow with
    magnitude := none, longitude := some 7, latitude := some 8,
    depth := some 9 }

/-- A malformed feature: the `properties` key is missing entirely. -/
def badFeature : Feature :=
  ⟨.absent, .val ⟨.val [1, 2, 3]⟩⟩

/-- A well-formed feature with a 2-element coordinate array. -/
def shortCoordFeature : Feature :=
  ⟨.val exProps, .val ⟨.val [10, 20]⟩⟩

/-- The row built from `shortCoordFeature`: depth is null, the row keeps
its magnitude and both coordinates. -/
def shortCoordRow : Earthquake :=
  { exRow with longitude := some 10, latitude := some 20, depth := none }

/-- A feature exercising the defaulting rules: `tsunami`, `sig` and `felt`
keys absent, `alert` and `mmi` absent, `cdi` present. -/
def defaultsFeature : Feature :=
  ⟨.val { mag := .val 3, place := .absent, time := .absent, url := .absent,
          tsunami := .absent, sig := .absent, alert := .absent,
          felt := .absent, cdi := .val (21 / 10), mmi := .absent },
   .val ⟨.val [1, 2]⟩⟩

/-- The empty-dict payload `{}`: parsed JSON of an empty object, which is
falsy in Python. -/
def emptyDict : Payload := ⟨.absent, false⟩

/-!
Helper lemmas about the loop, the dropna stage and the assembled
normalizer.
-/

theorem keepRow_iff (r : Earthquake) :
    keepRow r = true ↔
      (r.magnitude ≠ none ∧ r.longitude ≠ none ∧ r.latitude ≠ none) := by
  simp [keepRow, Option.isSome_iff_ne_none, and_assoc]

theorem except_bind_ok {α β : Type} (a : α) (g : α → Except PyErr β) :
    ((Except.ok a : Except PyErr α) >>= g) = g a := rfl

theorem except_bind_error {α β : Type} (e : PyErr) (g : α → Except PyErr β) :
    ((Except.error e : Except PyErr α) >>= g) = .error e := rfl

theorem buildRows_mem {feats : List Feature} {rows : List Earthquake}
    {f : Feature} (h : buildRows feats = .ok rows) (hf : f ∈ feats) :
    ∃ r, buildRow f = .ok r ∧ r ∈ rows := by
  induction feats generalizing rows with
  | nil => cases hf
  | cons g gs ih =>
    unfold buildRows at h
    cases hg : buildRow g with
    | error e => rw [hg] at h; exact Except.noConfusion h
    | ok r =>
      rw [hg] at h
      cases hgs : buildRows gs with
      | error e => rw [hgs] at h; exact Except.noConfusion h
      | ok rs =>
        rw [hgs] at h
        cases h
        cases hf with
        | head => exact ⟨r, hg, List.mem_cons_self _ _⟩
        | tail _ hf =>
          obtain ⟨r', hr', hmem⟩ := ih hgs hf
          exact ⟨r', hr', List.mem_cons_of_mem _ hmem⟩

theorem buildRows_mem_ok {feats : List Feature} {rows : List Earthquake}
    {f : Feature} {r : Earthquake} (h : buildRows feats = .ok rows)
    (hf : f ∈ feats) (hr : buildRow f = .ok r) : r ∈ rows := by
  obtain ⟨r', hr', hmem⟩ := buildRows_mem h hf
  rw [hr] at hr'
  cases hr'
  exact hmem

theorem buildRows_error_of_mem {feats : List Feature} {f : Feature}
    {e : PyErr} (hf : f ∈ feats) (he : buildRow f = .error e) :
    ∃ e₂, buildRows feats = .error e₂ := by
  induction feats with
  | nil => cases hf
  | cons g gs ih =>
    cases hg : buildRow g with
    | error e' => exact ⟨e', by unfold buildRows; rw [hg]⟩
    | ok r =>
      cases hf with
      | head => rw [hg] at he; exact Except.noConfusion he
      | tail _ hf =>
        obtain ⟨e₂, h₂⟩ := ih hf
        exact ⟨e₂, by unfold buildRows; rw [hg, h₂]⟩

theorem process_eval (label : String) (k : Bool) {feats : List Feature}
    {rows : List Earthquake} (h : buildRows feats = .ok rows)
    (hne : rows ≠ []) :
    process_earthquake_data label (some ⟨.val feats, k⟩)
      = .ok (if label == "Significant Earthquakes"
             then (rows.filter keepRow).filter isSignificant
             else rows.filter keepRow) := by
  obtain ⟨a, l, rfl⟩ : ∃ a l, rows = a :: l := by
    cases rows with
    | nil => exact absurd rfl hne
    | cons a l => exact ⟨a, l, rfl⟩
  simp [process_earthquake_data, Payload.truthy, h, dropnaMLL]

theorem process_error_of_buildRows (label : String) (k : Bool)
    {feats : List Feature} {e : PyErr} (h : buildRows feats = .error e) :
    process_earthquake_data label (some ⟨.val feats, k⟩) = .error e := by
  simp [process_earthquake_data, Payload.truthy, h]

/-- C3: a payload that is absent (`None`) or missing its `features` key is
handled gracefully (empty output, no error), but a payload whose `features`
list exists and is empty makes `process_earthquake_data` raise: the loop
builds no rows, `pd.DataFrame([])` has no columns, and
`dropna(subset=['magnitude', 'longitude', 'latitude'])` raises `KeyError`
for the missing column labels. This contradicts the claim's empty-list
half; the theorem records the code's actual behavior on all three inputs. -/
theorem C3_empty_features_raises :
    ∀ (selected_magnitude : String) (k : Bool),
      process_earthquake_data selected_magnitude (some ⟨.val [], k⟩)
          = .error .keyError ∧
      process_earthquake_data selected_magnitude none = .ok [] ∧
      process_earthquake_data selected_magnitude (some ⟨.absent, k⟩) = .ok [] := by
  intro sm k
  refine ⟨rfl, rfl, ?_⟩
  cases k <;> rfl

/-- C9: normalization is deterministic in the payload and the ambient
magnitude selection: two runs of `process_earthquake_data` on the same
input produce the same result, element for element. -/
theorem C9_normalize_pure :
    ∀ (selected_magnitude : String) (data : Option Payload)
      (out₁ out₂ : List Earthquake),
      process_earthquake_data selected_magnitude data = .ok out₁ →
      process_earthquake_data selected_magnitude data = .ok out₂ →
      out₁ = out₂ ∧ ∀ i : Nat, out₁[i]? = out₂[i]? := by
  intro sm d o₁ o₂ h₁ h₂
  rw [h₁] at h₂
  cases h₂
  exact ⟨rfl, fun i => rfl⟩

/-- C9 witness: both runs on a concrete one-feature payload return the
`exRow` table. -/
theorem C9_normalize_pure_witness :
    process_earthquake_data "All Earthquakes" (some ⟨.val [exFeature], false⟩)
        = .ok [exRow] ∧
    ([exRow] = [exRow] ∧ ∀ i : Nat, [exRow][i]? = [exRow][i]?) :=
  ⟨rfl, C9_normalize_pure "All Earthquakes" (some ⟨.val [exFeature], false⟩)
    [exRow] [exRow] rfl rfl⟩

/-- C6: for every magnitude-filter variant, the built query carries the
`minmagnitude` parameter exactly for the three numeric variants, with
values 4.5, 2.5 and 1.0; the `all` and `significant` variants omit it
(lines 63-68). -/
theorem C6_minmagnitude_param :
    ∀ (m : MagnitudeFilter) (time_period : String) (limit : Nat),
      ∃ p, build_params time_period m.value limit = .ok p ∧
        p.minmagnitude = (match m with
          | .min_4_5 => some ((9 : Rat) / 2)
          | .min_2_5 => some ((5 : Rat) / 2)
          | .min_1_0 => some 1
          | .all => none
          | .significant => none) := by
  intro m tp limit
  cases m <;> exact ⟨_, rfl, rfl⟩

/-- C7: the built query carries a `starttime` bound of now minus exactly
1 hour, 1 day, 7 days or 30 days (in microseconds) for the four bounded
windows, and omits it for `all`. In particular the `hour` branch, although
written as the float day count `1/24` at line 61, lands on exactly
3 600 000 000 microseconds: the binary64 value of `1/24` times 86400,
rounded back to binary64 and then to whole microseconds (both ties to
even), is exactly one hour. -/
theorem C7_starttime_param :
    ∀ (w : TimeWindow) (m : MagnitudeFilter) (limit : Nat),
      ∃ p, build_params w.value m.value limit = .ok p ∧
        p.starttime = (match w with
          | .all => none
          | .last_hour => some (3600 * 1000000)
          | .last_day => some (86400 * 1000000)
          | .last_week => some (7 * 86400 * 1000000)
          | .last_month => some (30 * 86400 * 1000000)) := by
  intro w m limit
  cases w <;> cases m <;> exact ⟨_, rfl, rfl⟩

/-- C1: for a payload of structurally well-formed features, every output
row has non-null magnitude, longitude and latitude; a constructed row with
a null in any of the three never reaches the output (it is excluded whole,
not null-padded); and whenever the separately specified significance
post-filter (see C2) is not in effect, a feature's row is present in the
output exactly when its magnitude, longitude and latitude are all present,
so no other (nullable) field affects inclusion. -/
theorem C1_required_fields_inclusion :
    ∀ (label : String) (k : Bool) (feats : List Feature)
      (rows : List Earthquake),
      buildRows feats = .ok rows → rows ≠ [] →
      ∃ out,
        process_earthquake_data label (some ⟨.val feats, k⟩) = .ok out ∧
        (∀ r ∈ out,
          r.magnitude ≠ none ∧ r.longitude ≠ none ∧ r.latitude ≠ none) ∧
        (∀ r ∈ rows,
          (r.magnitude = none ∨ r.longitude = none ∨ r.latitude = none) →
          r ∉ out) ∧
        (label ≠ "Significant Earthquakes" →
          ∀ f ∈ feats, ∀ r, buildRow f = .ok r →
            (r ∈ out ↔
              (r.magnitude ≠ none ∧ r.longitude ≠ none ∧ r.latitude ≠ none))) := by
  intro label k feats rows h hne
  refine ⟨_, process_eval label k h hne, ?_, ?_, ?_⟩
  · intro r hr
    have hr' : r ∈ rows.filter keepRow := by
      cases hb : (label == "Significant Earthquakes") <;> simp only [hb] at hr
      · simpa using hr
      · simp only [if_true] at hr
        exact List.mem_of_mem_filter hr
    exact (keepRow_iff r).mp (List.mem_filter.mp hr').2
  · intro r _ hnull hmem
    have hr' : r ∈ rows.filter keepRow := by
      cases hb : (label == "Significant Earthquakes") <;> simp only [hb] at hmem
      · simpa using hmem
      · simp only [if_true] at hmem
        exact List.mem_of_mem_filter hmem
    have hk := (keepRow_iff r).mp (List.mem_filter.mp hr').2
    rcases hnull with h₁ | h₁ | h₁
    · exact hk.1 h₁
    · exact hk.2.1 h₁
    · exact hk.2.2 h₁
  · intro hlabel f hf r hr
    have hb : (label == "Significant Earthquakes") = false := by
      simpa using hlabel
    rw [hb]
    simp only [Bool.false_eq_true, if_false]
    constructor
    · intro hmem
      exact (keepRow_iff r).mp (List.mem_filter.mp hmem).2
    · intro h₃
      exact List.mem_filter.mpr
        ⟨buildRows_mem_ok h hf hr, (keepRow_iff r).mpr h₃⟩

/-- C1 witness: on the two-feature payload `[exFeature, noMagFeature]`
(the second has a null magnitude) with the `All Earthquakes` selection,
the theorem applies with both hypotheses discharged by evaluation. -/
theorem C1_required_fields_inclusion_witness :
    ∃ out,
      process_earthquake_data "All Earthquakes"
          (some ⟨.val [exFeature, noMagFeature], true⟩) = .ok out ∧
      (∀ r ∈ out,
        r.magnitude ≠ none ∧ r.longitude ≠ none ∧ r.latitude ≠ none) ∧
      (∀ r ∈ [exRow, noMagRow],
        (r.magnitude = none ∨ r.longitude = none ∨ r.latitude = none) →
        r ∉ out) ∧
      ("All Earthquakes" ≠ "Significant Earthquakes" →
        ∀ f ∈ [exFeature, noMagFeature], ∀ r, buildRow f = .ok r →
          (r ∈ out ↔
            (r.magnitude ≠ none ∧ r.longitude ≠ none ∧ r.latitude ≠ none))) :=
  C1_required_fields_inclusion "All Earthquakes" true [exFeature, noMagFeature]
    [exRow, noMagRow] rfl (by simp)

/-- C2: the significance filter runs after row construction and only for
the `Significant Earthquakes` selection: there the output is exactly the
constructed-and-kept rows with significance at least 600, while for each
of the four other selections the output is all constructed-and-kept rows,
so no row is removed on account of its significance. -/
theorem C2_significance_postfilter :
    ∀ (k : Bool) (feats : List Feature) (rows : List Earthquake),
      buildRows feats = .ok rows → rows ≠ [] →
      (process_earthquake_data MagnitudeFilter.significant.label
          (some ⟨.val feats, k⟩)
        = .ok ((rows.filter keepRow).filter isSignificant)) ∧
      (∀ m : MagnitudeFilter, m ≠ .significant →
        process_earthquake_data m.label (some ⟨.val feats, k⟩)
          = .ok (rows.filter keepRow)) := by
  intro k feats rows h hne
  constructor
  · rw [process_eval _ k h hne]
    rfl
  · intro m hm
    rw [process_eval _ k h hne]
    cases m with
    | significant => exact absurd rfl hm
    | all => rfl
    | min_4_5 => rfl
    | min_2_5 => rfl
    | min_1_0 => rfl

/-- C2 witness: on the payload `[exFeature, lowSigFeature]` (significances
650 and 400), the significant selection keeps only `exRow` and the other
selections keep both rows. -/
theorem C2_significance_postfilter_witness :
    (process_earthquake_data MagnitudeFilter.significant.label
        (some ⟨.val [exFeature, lowSigFeature], false⟩)
      = .ok (([exRow, lowSigRow].filter keepRow).filter isSignificant)) ∧
    (∀ m : MagnitudeFilter, m ≠ .significant →
      process_earthquake_data m.label
          (some ⟨.val [exFeature, lowSigFeature], false⟩)
        = .ok ([exRow, lowSigRow].filter keepRow)) :=
  C2_significance_postfilter false [exFeature, lowSigFeature]
    [exRow, lowSigRow] rfl (by simp)

theorem buildRow_ok_eq {f : Feature} {r : Earthquake}
    (h : buildRow f = .ok r) :
    ∃ props coords t, getProps f = .ok props ∧ getCoords f = .ok coords ∧
      pyTime props = .ok t ∧
      r = { magnitude := props.mag.getD none
            place := props.place.getD none
            time := t
            longitude := coords[0]?
            latitude := coords[1]?
            depth := coords[2]?
            url := props.url.getD none
            tsunami := props.tsunami.getD (some 0)
            significance := props.sig.getD (some 0)
            alert := props.alert.getD none
            felt := props.felt.getD (some 0)
            cdi := props.cdi.getD none
            mmi := props.mmi.getD none } := by
  unfold buildRow at h
  cases hp : getProps f with
  | error e => rw [hp] at h; exact Except.noConfusion h
  | ok props =>
    simp only [hp, except_bind_ok] at h
    cases hc : getCoords f with
    | error e => rw [hc] at h; exact Except.noConfusion h
    | ok coords =>
      simp only [hc, except_bind_ok] at h
      cases ht : pyTime props with
      | error e => rw [ht] at h; exact Except.noConfusion h
      | ok t =>
        simp only [ht, except_bind_ok] at h
        cases h
        exact ⟨props, coords, t, rfl, rfl, ht, rfl⟩

/-- C5: a well-formed feature whose coordinate array has fewer than three
elements yields a row whose `depth` is null (never defaulted to 0), a
three-or-more-element array yields `depth` equal to the third element, and
a short-coordinate row is still included in the output (under any
non-significant selection) provided its magnitude, longitude and latitude
are present. -/
theorem C5_depth_optional :
    ∀ (f : Feature) (r : Earthquake) (cs : List Rat),
      buildRow f = .ok r → getCoords f = .ok cs →
      ((cs.length < 3 → r.depth = none) ∧
       (∀ a b c rest, cs = a :: b :: c :: rest → r.depth = some c) ∧
       (∀ (label : String) (k : Bool) (feats : List Feature)
          (rows : List Earthquake),
          label ≠ "Significant Earthquakes" →
          buildRows feats = .ok rows → f ∈ feats →
          r.magnitude ≠ none → r.longitude ≠ none → r.latitude ≠ none →
          ∃ out,
            process_earthquake_data label (some ⟨.val feats, k⟩) = .ok out ∧
            r ∈ out)) := by
  intro f r cs hr hc
  obtain ⟨props, coords, t, hp, hc', ht, rfl⟩ := buildRow_ok_eq hr
  rw [hc] at hc'
  cases hc'
  refine ⟨?_, ?_, ?_⟩
  · intro hlen
    simpa using List.getElem?_eq_none (by omega)
  · rintro a b c rest rfl
    simp
  · intro label k feats rows hlabel hrows hf hm hlon hlat
    have hmem : _ ∈ rows := buildRows_mem_ok hrows hf hr
    have hne : rows ≠ [] := List.ne_nil_of_mem hmem
    refine ⟨_, process_eval label k hrows hne, ?_⟩
    have hb : (label == "Significant Earthquakes") = false := by
      simpa using hlabel
    rw [hb]
    simp only [Bool.false_eq_true, if_false]
    exact List.mem_filter.mpr
      ⟨hmem, (keepRow_iff _).mpr ⟨hm, hlon, hlat⟩⟩

/-- C5 witness: `shortCoordFeature` has the 2-element coordinate array
`[10, 20]`; its row has null depth and is included in the output for the
`All Earthquakes` selection. -/
theorem C5_depth_optional_witness :
    (([(10 : Rat), 20].length < 3 → shortCoordRow.depth = none) ∧
     (∀ a b c rest, [(10 : Rat), 20] = a :: b :: c :: rest →
        shortCoordRow.depth = some c) ∧
     (∀ (label : String) (k : Bool) (feats : List Feature)
        (rows : List Earthquake),
        label ≠ "Significant Earthquakes" →
        buildRows feats = .ok rows → shortCoordFeature ∈ feats →
        shortCoordRow.magnitude ≠ none → shortCoordRow.longitude ≠ none →
        shortCoordRow.latitude ≠ none →
        ∃ out,
          process_earthquake_data label (some ⟨.val feats, k⟩) = .ok out ∧
          shortCoordRow ∈ out)) :=
  C5_depth_optional shortCoordFeature shortCoordRow [10, 20] rfl rfl

/-- C10: in every successfully built row, an absent `tsunami`, `sig` or
`felt` key yields the value 0 (not null), while `alert`, `cdi` and `mmi`
pass through unchanged: null when the key is absent or null, and the
stored value when present. -/
theorem C10_default_and_passthrough :
    ∀ (f : Feature) (p : Props) (r : Earthquake),
      f.properties = .val p → buildRow f = .ok r →
      ((p.tsunami = .absent → r.tsunami = some 0) ∧
       (p.sig = .absent → r.significance = some 0) ∧
       (p.felt = .absent → r.felt = some 0) ∧
       (p.alert = .absent → r.alert = none) ∧
       (∀ a, p.alert = .val a → r.alert = some a) ∧
       (p.cdi = .absent → r.cdi = none) ∧
       (∀ x, p.cdi = .val x → r.cdi = some x) ∧
       (p.mmi = .absent → r.mmi = none) ∧
       (∀ x, p.mmi = .val x → r.mmi = some x)) := by
  intro f p r hp hr
  obtain ⟨props, coords, t, hp', _, _, rfl⟩ := buildRow_ok_eq hr
  have hpp : props = p := by
    unfold getProps at hp'
    rw [hp] at hp'
    cases hp'
    rfl
  subst hpp
  refine ⟨?_, ?_, ?_, ?_, ?_, ?_, ?_, ?_, ?_⟩ <;>
    first
    | (intro h; rw [h]; rfl)
    | (intro x h; rw [h]; rfl)

/-- C10 witness: `defaultsFeature` has absent `tsunami`, `sig`, `felt`,
`alert` and `mmi` keys and a present `cdi`; the theorem applies with both
hypotheses discharged by evaluation. -/
theorem C10_default_and_passthrough_witness :
    ∃ r, buildRow defaultsFeature = .ok r ∧
      r.tsunami = some 0 ∧ r.significance = some 0 ∧ r.felt = some 0 ∧
      r.alert = none ∧ r.cdi = some (21 / 10) ∧ r.mmi = none := by
  refine ⟨_, rfl, ?_⟩
  have h := C10_default_and_passthrough defaultsFeature
    { mag := .val 3, place := .absent, time := .absent, url := .absent,
      tsunami := .absent, sig := .absent, alert := .absent,
      felt := .absent, cdi := .val (21 / 10), mmi := .absent } _ rfl rfl
  exact ⟨h.1 rfl, h.2.1 rfl, h.2.2.1 rfl, h.2.2.2.1 rfl,
    h.2.2.2.2.2.2.1 (21 / 10) rfl, h.2.2.2.2.2.2.2.1 rfl⟩

theorem buildRow_error_of_malformed (f : Feature)
    (h : f.properties = .absent ∨ f.geometry = .absent ∨
         (∃ g, f.geometry = .val g ∧ g.coordinates = .absent) ∨
         (∃ p, f.properties = .val p ∧ p.time = .null)) :
    ∃ e, buildRow f = .error e := by
  cases hb : buildRow f with
  | error e => exact ⟨e, rfl⟩
  | ok r =>
    exfalso
    obtain ⟨props, coords, t, hp, hc, ht, _⟩ := buildRow_ok_eq hb
    rcases h with h₁ | h₁ | ⟨g, hg, hgc⟩ | ⟨p, hpv, htn⟩
    · simp only [getProps, h₁] at hp
      exact Except.noConfusion hp
    · simp only [getCoords, h₁] at hc
      exact Except.noConfusion hc
    · simp only [getCoords, hg, hgc] at hc
      exact Except.noConfusion hc
    · simp only [getProps, hpv] at hp
      cases hp
      simp only [pyTime, htn, DictField.getD] at ht
      exact Except.noConfusion ht

/-- C4 (counterexample): the claim that normalize never raises on a
malformed individual record is false. On a payload whose second feature
lacks its `properties` object, `feature['properties']` at line 85 raises
`KeyError`, aborting the whole call; the well-formed first feature is not
normalized either, so the record is not skipped. -/
theorem C4_counterexample_malformed_raises :
    process_earthquake_data "All Earthquakes"
        (some ⟨.val [exFeature, badFeature], false⟩) = .error .keyError := rfl

/-- C4 (amended): normalize raises a hard failure whenever the feature
list contains a record missing its `properties` object, missing its
`geometry` or `coordinates`, or carrying a null timestamp; the exception
aborts normalization of the remaining records (no per-record skipping
exists — only rows whose magnitude, longitude or latitude values are null
inside an intact structure are silently dropped, per C1). -/
theorem C4_amended_malformed_aborts :
    ∀ (label : String) (k : Bool) (feats : List Feature) (f : Feature),
      f ∈ feats →
      (f.properties = .absent ∨ f.geometry = .absent ∨
       (∃ g, f.geometry = .val g ∧ g.coordinates = .absent) ∨
       (∃ p, f.properties = .val p ∧ p.time = .null)) →
      ∃ e, process_earthquake_data label (some ⟨.val feats, k⟩) = .error e := by
  intro label k feats f hf hmal
  obtain ⟨e₀, he₀⟩ := buildRow_error_of_malformed f hmal
  obtain ⟨e₂, he₂⟩ := buildRows_error_of_mem hf he₀
  exact ⟨e₂, process_error_of_buildRows label k he₂⟩

/-- C4 (amended) witness: on the payload `[exFeature, badFeature]` with
`badFeature` missing its `properties` object, the amended theorem applies,
its membership and malformedness hypotheses discharged by evaluation. -/
theorem C4_amended_malformed_aborts_witness :
    ∃ e, process_earthquake_data "All Earthquakes"
        (some ⟨.val [exFeature, badFeature], false⟩) = .error e :=
  C4_amended_malformed_aborts "All Earthquakes" false [exFeature, badFeature]
    badFeature (by simp) (Or.inl rfl)

theorem fetch_eval (w : TimeWindow) (m : MagnitudeFilter) (limit : Nat)
    {P : UsgsParams} (hP : build_params w.value m.value limit = .ok P)
    (t : HttpRequest → TransportResult) :
    fetch_earthquake_data w.value m.value limit t
      = match t ⟨P, 10⟩ with
        | .exception => .ok none
        | .response s b =>
          if 400 ≤ s ∧ s < 600 then .ok none else .ok (some b) := by
  unfold fetch_earthquake_data
  rw [hP]

/-- C8 (counterexample): the claim that every successful fetch result is
passed on to the normalizer is false. With a transport that answers status
200 with the empty JSON object `{}`, the fetch succeeds and returns the
payload (no fetch error), yet the truthiness guard `if earthquake_data:`
at line 124 is false for an empty dict, so `process_earthquake_data` is
never invoked and the user sees the fetch-failure message of line 287. -/
theorem C8_counterexample_empty_payload :
    fetch_earthquake_data TimeWindow.last_week.value MagnitudeFilter.all.value
        100 (fun _ => .response 200 emptyDict) = .ok (some emptyDict) ∧
    run_pipeline .all .last_week 100 (fun _ => .response 200 emptyDict)
      = .ok none :=
  ⟨rfl, rfl⟩

/-- C8 (amended): for every query, one request is issued with the fixed
10-second timeout and the fetch result depends only on that single
request's outcome (no retries); the fetch-error state (`None`) occurs
exactly when the transport raises or answers a 4xx/5xx status; after a
fetch error the normalizer is never invoked; and a successful fetch
reaches the normalizer exactly when its payload is truthy (non-empty), so
a successful fetch of an empty document is treated like a fetch error. -/
theorem C8_amended_fetch_error_boundary :
    ∀ (m : MagnitudeFilter) (w : TimeWindow) (limit : Nat)
      (transport : HttpRequest → TransportResult),
      ∃ req : HttpRequest,
        req.timeoutSeconds = 10 ∧
        build_params w.value m.value limit = .ok req.params ∧
        (fetch_earthquake_data w.value m.value limit transport = .ok none ↔
          (transport req = .exception ∨
           ∃ s b, transport req = .response s b ∧ 400 ≤ s ∧ s < 600)) ∧
        (∀ t₂ : HttpRequest → TransportResult, t₂ req = transport req →
          fetch_earthquake_data w.value m.value limit t₂
            = fetch_earthquake_data w.value m.value limit transport) ∧
        (fetch_earthquake_data w.value m.value limit transport = .ok none →
          run_pipeline m w limit transport = .ok none) ∧
        (∀ res, run_pipeline m w limit transport = .ok (some res) ↔
          ∃ p, fetch_earthquake_data w.value m.value limit transport
                = .ok (some p) ∧
            p.truthy = true ∧
            res = process_earthquake_data m.label (some p)) := by
  intro m w limit transport
  obtain ⟨P, hP⟩ : ∃ P, build_params w.value m.value limit = .ok P := by
    cases m <;> exact ⟨_, rfl⟩
  refine ⟨⟨P, 10⟩, rfl, hP, ?_, ?_, ?_, ?_⟩
  · rw [fetch_eval w m limit hP transport]
    cases htr : transport ⟨P, 10⟩ with
    | exception => simp
    | response s b =>
      by_cases hs : 400 ≤ s ∧ s < 600
      · simp [hs]
      · simp [hs]
  · intro t₂ ht₂
    rw [fetch_eval w m limit hP t₂, fetch_eval w m limit hP transport, ht₂]
  · intro hnone
    unfold run_pipeline
    rw [hnone]
  · intro res
    obtain ⟨d, hd⟩ :
        ∃ d, fetch_earthquake_data w.value m.value limit transport = .ok d := by
      rw [fetch_eval w m limit hP transport]
      cases transport ⟨P, 10⟩ with
      | exception => exact ⟨none, rfl⟩
      | response s b =>
        by_cases hs : 400 ≤ s ∧ s < 600
        · exact ⟨none, by simp [hs]⟩
        · exact ⟨some b, by simp [hs]⟩
    unfold run_pipeline
    rw [hd]
    cases d with
    | none => simp
    | some p =>
      by_cases hp : p.truthy
      · simp [hp]
        exact eq_comm
      · simp [hp]

/-- C8 (amended) witness: the amended theorem instantiated at a concrete
query and a transport that always raises; the fetch fails, and the
normalizer is not invoked. -/
theorem C8_amended_fetch_error_boundary_witness :
    ∃ req : HttpRequest,
      req.timeoutSeconds = 10 ∧
      build_params TimeWindow.last_day.value MagnitudeFilter.min_4_5.value 50
        = .ok req.params ∧
      (fetch_earthquake_data TimeWindow.last_day.value
          MagnitudeFilter.min_4_5.value 50 (fun _ => .exception) = .ok none ↔
        ((fun (_ : HttpRequest) => TransportResult.exception) req
            = .exception ∨
         ∃ s b, (fun (_ : HttpRequest) => TransportResult.exception) req
            = .response s b ∧ 400 ≤ s ∧ s < 600)) ∧
      (∀ t₂ : HttpRequest → TransportResult,
        t₂ req = (fun (_ : HttpRequest) => TransportResult.exception) req →
        fetch_earthquake_data TimeWindow.last_day.value
            MagnitudeFilter.min_4_5.value 50 t₂
          = fetch_earthquake_data TimeWindow.last_day.value
              MagnitudeFilter.min_4_5.value 50 (fun _ => .exception)) ∧
      (fetch_earthquake_data TimeWindow.last_day.value
          MagnitudeFilter.min_4_5.value 50 (fun _ => .exception) = .ok none →
        run_pipeline .min_4_5 .last_day 50 (fun _ => .exception) = .ok none) ∧
      (∀ res, run_pipeline .min_4_5 .last_day 50 (fun _ => .exception)
          = .ok (some res) ↔
        ∃ p, fetch_earthquake_data TimeWindow.last_day.value
              MagnitudeFilter.min_4_5.value 50 (fun _ => .exception)
            = .ok (some p) ∧
          p.truthy = true ∧
          res = process_earthquake_data MagnitudeFilter.min_4_5.label
                  (some p)) :=
  C8_amended_fetch_error_boundary .min_4_5 .last_day 50 (fun _ => .exception)
